import Mathlib

/-!
Verification of the boot and interrupt-dispatch core of the c-morse firmware
(src/startup.c and src/transmitter.c), a shallow embedding in Lean 4.

`startup.c` defines the RP2040 (ARM Cortex-M0+) exception vector table, the
reset handler, and a default handler to which every weak handler symbol is
aliased.  `transmitter.c` supplies a strong override for `ioIrqBank0` and a
`main` that configures GPIO16 as a button with a rising-edge interrupt.
-/

namespace CMorse

/-- The handler symbols declared in src/startup.c (lines 22-64).
`defaultHandler` and `resetHandler` are defined in the file itself; every
other symbol is declared weak with `__attribute__((weak, alias("defaultHandler")))`. -/
inductive Handler where
  | defaultHandler
  | resetHandler
  | nmiHandler
  | hardFaultHandler
  | svCallHandler
  | pendSvHandler
  | sysTickHandler
  | timerIrq0
  | timerIrq1
  | timerIrq2
  | timerIrq3
  | pwmIrqWrap
  | usbctrlIrq
  | xipIrq
  | pio0Irq0
  | pio0Irq1
  | pio1Irq0
  | pio1Irq1
  | dmaIrq0
  | dmaIrq1
  | ioIrqBank0
  | ioIrqQspi
  | sioIrqProc0
  | sioIrqProc1
  | clocksIrq
  | spi0Irq
  | spi1Irq
  | uart0Irq
  | uart1Irq
  | adcIrqFifo
  | i2c0Irq
  | i2c1Irq
  | rtcIrq
  deriving DecidableEq, Repr, Fintype

/-- One entry of the `vector[]` array in src/startup.c (lines 74-129):
the first entry is the address of `_sstack` (a data address, the initial
stack pointer), a `0` literal is a reserved null entry, and every other
entry is the address of one of the handler symbols. -/
inductive VectorEntry where
  | stackTop
  | handler (h : Handler)
  | reserved
  deriving DecidableEq, Repr

/-- The `vector[]` array of src/startup.c lines 74-129, entry by entry in
source order. -/
def vector : List VectorEntry :=
  [ .stackTop,                -- (vectFunc)(&_sstack)
    .handler .resetHandler,
    .handler .nmiHandler,
    .handler .hardFaultHandler,
    .reserved,
    .reserved,
    .reserved,
    .reserved,
    .reserved,
    .reserved,
    .reserved,
    .handler .svCallHandler,
    .reserved,
    .reserved,
    .handler .pendSvHandler,
    .handler .sysTickHandler,
    .handler .timerIrq0,
    .handler .timerIrq1,
    .handler .timerIrq2,
    .handler .timerIrq3,
    .handler .pwmIrqWrap,
    .handler .usbctrlIrq,
    .handler .xipIrq,
    .handler .pio0Irq0,
    .handler .pio0Irq1,
    .handler .pio1Irq0,
    .handler .pio1Irq1,
    .handler .dmaIrq0,
    .handler .dmaIrq1,
    .handler .ioIrqBank0,
    .handler .ioIrqQspi,
    .handler .sioIrqProc0,
    .handler .sioIrqProc1,
    .handler .clocksIrq,
    .handler .spi0Irq,
    .handler .spi1Irq,
    .handler .uart0Irq,
    .handler .uart1Irq,
    .handler .adcIrqFifo,
    .handler .i2c0Irq,
    .handler .i2c1Irq,
    .handler .rtcIrq,
    .reserved,
    .reserved,
    .reserved,
    .reserved,
    .reserved,
    .reserved ]

/-- The symbols declared `__attribute__((weak, alias("defaultHandler")))` in
src/startup.c lines 29-64, in source order. -/
def weakSymbols : List Handler :=
  [ .nmiHandler, .hardFaultHandler, .svCallHandler, .pendSvHandler, .sysTickHandler,
    .timerIrq0, .timerIrq1, .timerIrq2, .timerIrq3,
    .pwmIrqWrap, .usbctrlIrq, .xipIrq,
    .pio0Irq0, .pio0Irq1, .pio1Irq0, .pio1Irq1,
    .dmaIrq0, .dmaIrq1,
    .ioIrqBank0, .ioIrqQspi,
    .sioIrqProc0, .sioIrqProc1,
    .clocksIrq,
    .spi0Irq, .spi1Irq,
    .uart0Irq, .uart1Irq,
    .adcIrqFifo,
    .i2c0Irq, .i2c1Irq,
    .rtcIrq ]

/-- Link-time resolution of a handler symbol (the documented strong-overrides-weak
contract of the toolchain, which the weak alias declarations of src/startup.c
lines 29-64 rely on): a weak symbol with no strong application-supplied
definition resolves to `defaultHandler`, its alias target; a symbol with a
strong definition (`ov h = true`), and every non-weak symbol, resolves to
itself. -/
def resolve (ov : Handler → Bool) (h : Handler) : Handler :=
  if h ∈ weakSymbols ∧ ov h = false then .defaultHandler else h

/-- The overrides supplied by the application: src/transmitter.c defines a
strong `ioIrqBank0` (line 78) and nothing else that names a vector slot. -/
def appOverrides : Handler → Bool :=
  fun h => h == .ioIrqBank0

/-- Primitive actions observable in the embedded control flow of
src/startup.c: the call `main();` (line 136), one pass through an empty
busy loop body such as `while(true);` (line 137), and the
`__asm volatile("wfi")` wait-for-interrupt instruction (line 153). -/
inductive Instr where
  | callMain
  | spin
  | wfi
  deriving DecidableEq, Repr

/-- Control states of `resetHandler` (src/startup.c lines 134-138): `entry`
is about to execute `main();`; `halted` is inside `while(true);`. -/
inductive BootState where
  | entry
  | halted
  deriving DecidableEq, Repr, Fintype

/-- One step of `resetHandler`: from `entry`, `main()` is called and (when it
returns) control falls into the `while(true);` loop; from `halted`, the empty
loop repeats forever. -/
def bootNext : BootState → BootState
  | .entry => .halted
  | .halted => .halted

/-- The action `resetHandler` performs in each control state: the call to
`main` at `entry`, and one empty busy-loop iteration (no instruction, in
particular no `wfi`) at `halted`. -/
def bootInstr : BootState → Instr
  | .entry => .callMain
  | .halted => .spin

/-- The single control state of `defaultHandler` (src/startup.c lines
150-155): inside `while (true) { __asm volatile("wfi"); }`. -/
inductive TrapState where
  | waiting
  deriving DecidableEq, Repr

/-- One step of `defaultHandler`: `some` next state, i.e. the function never
returns to its caller (a `none` would model falling off the end). -/
def trapStep : TrapState → Option TrapState
  | .waiting => some .waiting

/-- The action `defaultHandler` performs in each iteration of its loop:
the `wfi` wait-for-interrupt instruction. -/
def trapInstr : TrapState → Instr
  | .waiting => .wfi

/-! Embedding of src/transmitter.c. -/

/-- `#define BUTTON_PIN 16` (src/transmitter.c line 59). -/
def BUTTON_PIN : Nat := 16

/-- `#define SPEAKER_PIN 21` (line 60). -/
def SPEAKER_PIN : Nat := 21

/-- `#define LED_PIN 25` (line 61). -/
def LED_PIN : Nat := 25

/-- `#define GPIO_INT_EDGE_HIGH 0x8` (line 65). -/
def GPIO_INT_EDGE_HIGH : Nat := 0x8

/-- `#define IO_BANK0_IRQ 13` (line 66). -/
def IO_BANK0_IRQ : Nat := 13

/-- The value `main` writes to `NVIC_ISER` (line 132): `1U << IO_BANK0_IRQ`. -/
def nvicIserValue : Nat := 1 <<< IO_BANK0_IRQ

/-- All ones in a 32-bit register. -/
def mask32 : Nat := 0xFFFFFFFF

/-- The latched (write-1-to-clear) bits of an `io->intr[i]` register: in each
per-pin nibble, bit 2 (edge low) and bit 3 (edge high) are latched edge
detections cleared by writing 1; bits 0 and 1 (level low/high) are raw pin
level and unaffected by writes (RP2040 IO_BANK0 INTR register). -/
def edgeBits : Nat := 0xCCCCCCCC

/-- Hardware effect of writing value `v` to an `io->intr[i]` register:
write-1-to-clear on the edge bits, no effect on the level bits. -/
def intrW1C (old v : Nat) : Nat := old &&& (mask32 ^^^ (v &&& edgeBits))

/-- The hardware registers touched by `ioIrqBank0` (src/transmitter.c lines
78-99): the four raw-interrupt words `io->intr[0..3]`, the interrupt-enable
word `io->proc0_inte[2]` covering the button pin, and the SIO GPIO output
register `sio->gpio_out`. -/
structure HwState where
  intr0 : Nat
  intr1 : Nat
  intr2 : Nat
  intr3 : Nat
  inte2 : Nat
  gpioOut : Nat
  deriving DecidableEq, Repr

/-- Write `v` to `io->intr[idx]` with the write-1-to-clear semantics of
`intrW1C`. -/
def writeIntr (s : HwState) (idx v : Nat) : HwState :=
  match idx with
  | 0 => { s with intr0 := intrW1C s.intr0 v }
  | 1 => { s with intr1 := intrW1C s.intr1 v }
  | 2 => { s with intr2 := intrW1C s.intr2 v }
  | _ => { s with intr3 := intrW1C s.intr3 v }

/-- The value read from `io->proc0_ints[2]`: the RP2040 masked interrupt
status, raw/latched interrupts and-ed with the processor-0 enable mask
(`INTS = INTR & INTE`; the force register `INTF`, never written by this
program, is taken as zero). -/
def ints2 (s : HwState) : Nat := s.intr2 &&& s.inte2

/-- One register write (or the busy delay) performed by `ioIrqBank0`, in the
vocabulary of src/transmitter.c: a write to the atomic `sio->gpio_out_set`
alias, a write to the atomic `sio->gpio_out_clr` alias, a write to
`io->intr[idx]`, or a call `delay(n)`. -/
inductive Effect where
  | gpioOutSet (m : Nat)
  | gpioOutClr (m : Nat)
  | intrWrite (idx v : Nat)
  | delayFor (n : Nat)
  deriving DecidableEq, Repr

/-- Hardware semantics of one effect. `gpio_out_set` ors the mask into
`gpio_out`; `gpio_out_clr` clears the mask's bits; `delay` only burns time. -/
def applyEffect (s : HwState) : Effect → HwState
  | .gpioOutSet m => { s with gpioOut := (s.gpioOut ||| m) &&& mask32 }
  | .gpioOutClr m => { s with gpioOut := s.gpioOut &&& (mask32 ^^^ (m &&& mask32)) }
  | .intrWrite idx v => writeIntr s idx v
  | .delayFor _ => s

/-- The sequence of effects `ioIrqBank0` performs from state `s`
(src/transmitter.c lines 78-99, expression by expression): it reads
`io->proc0_ints[BUTTON_PIN / 8]` once, tests the edge-high bit of the button
pin, and if set: sets LED and speaker outputs, delays 100000, clears them,
and writes `0xF << (4 * (BUTTON_PIN % 8))` to `io->intr[BUTTON_PIN / 8]`;
otherwise it does nothing. -/
def ioIrqBank0Effects (s : HwState) : List Effect :=
  if ints2 s &&& (GPIO_INT_EDGE_HIGH <<< (4 * (BUTTON_PIN % 8))) ≠ 0 then
    [ .gpioOutSet ((1 <<< LED_PIN) ||| (1 <<< SPEAKER_PIN)),
      .delayFor 100000,
      .gpioOutClr ((1 <<< LED_PIN) ||| (1 <<< SPEAKER_PIN)),
      .intrWrite (BUTTON_PIN / 8) (0xF <<< (4 * (BUTTON_PIN % 8))) ]
  else []

/-- Run a list of effects left to right. -/
def runEffects (s : HwState) (es : List Effect) : HwState := es.foldl applyEffect s

/-- The state after `ioIrqBank0` returns, starting from `s`. -/
def ioIrqBank0Run (s : HwState) : HwState := runEffects s (ioIrqBank0Effects s)

/-! Register accesses of the program, for the atomic-alias discipline. -/

/-- The hardware registers src/transmitter.c accesses. -/
inductive Reg where
  | resetsReset
  | gpioCtrl (pin : Nat)
  | padsGpio (pin : Nat)
  | sioGpioOe
  | sioGpioOut
  | ioIntr (i : Nat)
  | ioProcInte (i : Nat)
  | ioProcInts (i : Nat)
  | nvicIser
  deriving DecidableEq, Repr

/-- How a register is accessed: a read, a plain write of a value, a plain
read-modify-write sequence (`&=`, `|=`), or a write through one of the
hardware's atomic set/clear/xor alias registers. -/
inductive AccessKind where
  | read
  | plainWrite
  | plainRMW
  | atomicSet
  | atomicClr
  | atomicXor
  deriving DecidableEq, Repr

/-- The execution context an access runs in: foreground code (`main`) or the
interrupt handler (`ioIrqBank0`). -/
inductive Ctx where
  | foreground
  | handler
  deriving DecidableEq, Repr

/-- One static register access in the source. -/
structure Access where
  reg : Reg
  kind : AccessKind
  ctx : Ctx
  deriving DecidableEq, Repr

/-- Every static hardware-register access of src/transmitter.c, in source
order: first the body of `ioIrqBank0` (lines 84-97), then the body of `main`
(lines 107-147). -/
def programAccesses : List Access :=
  [ ⟨.ioProcInts 2, .read, .handler⟩,        -- line 84: io->proc0_ints[2] & ...
    ⟨.sioGpioOut, .atomicSet, .handler⟩,     -- line 91: sio->gpio_out_set = ...
    ⟨.sioGpioOut, .atomicClr, .handler⟩,     -- line 94: sio->gpio_out_clr = ...
    ⟨.ioIntr 2, .plainWrite, .handler⟩,      -- line 97: io->intr[2] = ... (W1C)
    ⟨.resetsReset, .plainRMW, .foreground⟩,  -- line 107: *RESETS_RESET &= ~(1U<<5)
    ⟨.resetsReset, .read, .foreground⟩,      -- line 108: while ((*RESETS_RESET & ...))
    ⟨.gpioCtrl 16, .plainWrite, .foreground⟩, -- line 114
    ⟨.sioGpioOe, .atomicClr, .foreground⟩,   -- line 115: sio->gpio_oe_clr = ...
    ⟨.padsGpio 16, .plainWrite, .foreground⟩, -- line 116
    ⟨.gpioCtrl 25, .plainWrite, .foreground⟩, -- line 119
    ⟨.sioGpioOe, .atomicSet, .foreground⟩,   -- line 120: sio->gpio_oe_set = ...
    ⟨.gpioCtrl 21, .plainWrite, .foreground⟩, -- line 123
    ⟨.sioGpioOe, .atomicSet, .foreground⟩,   -- line 124
    ⟨.ioIntr 2, .plainWrite, .foreground⟩,   -- line 130: io->intr[2] = ... (W1C)
    ⟨.ioProcInte 2, .plainRMW, .foreground⟩, -- line 131: io->proc0_inte[2] |= ...
    ⟨.nvicIser, .plainWrite, .foreground⟩,   -- line 132: NVIC_ISER = ... (W1S)
    ⟨.sioGpioOut, .atomicSet, .foreground⟩,  -- line 137
    ⟨.sioGpioOut, .atomicClr, .foreground⟩,  -- line 140
    ⟨.sioGpioOut, .atomicSet, .foreground⟩,  -- line 145
    ⟨.sioGpioOut, .atomicClr, .foreground⟩ ] -- line 147

/-- Whether the target provides atomic set/clear/xor aliases for a register:
every RP2040 APB peripheral register (RESETS, IO_BANK0, PADS_BANK0) has the
+0x1000/+0x2000/+0x3000 xor/set/clear address aliases, and the SIO
`gpio_out`/`gpio_oe` registers have dedicated set/clr/xor registers; the ARM
Cortex-M0+ NVIC has no such aliases (`NVIC_ISER` is itself write-1-to-set). -/
def hasAtomicAlias : Reg → Bool
  | .nvicIser => false
  | _ => true

/-- A register is shared between foreground and handler when both contexts
access it somewhere in the program. -/
def isSharedReg (r : Reg) : Bool :=
  (programAccesses.any fun a => a.reg == r && a.ctx == .foreground) &&
  (programAccesses.any fun a => a.reg == r && a.ctx == .handler)

/-! The target architecture's published vector layout, for the round-trip
check of the compiled table against it. -/

/-- The architectural meaning of a vector-table slot in the published ARMv6-M /
RP2040 exception model: initial stack pointer, a named system exception,
a reserved slot, or external interrupt number `n`. -/
inductive SlotKind where
  | stackPointer
  | reset
  | nmi
  | hardFault
  | svCall
  | pendSv
  | sysTick
  | reserved
  | irq (n : Nat)
  | trap
  deriving DecidableEq, Repr

/-- The documented role of each handler symbol, read off the RP2040
datasheet's interrupt numbering (TIMER_IRQ_0 = 0 ... RTC_IRQ = 25) and the
ARMv6-M system exception names; `defaultHandler` is the trap implementation
itself and names no slot. -/
def archSlot : Handler → SlotKind
  | .defaultHandler => .trap
  | .resetHandler => .reset
  | .nmiHandler => .nmi
  | .hardFaultHandler => .hardFault
  | .svCallHandler => .svCall
  | .pendSvHandler => .pendSv
  | .sysTickHandler => .sysTick
  | .timerIrq0 => .irq 0
  | .timerIrq1 => .irq 1
  | .timerIrq2 => .irq 2
  | .timerIrq3 => .irq 3
  | .pwmIrqWrap => .irq 4
  | .usbctrlIrq => .irq 5
  | .xipIrq => .irq 6
  | .pio0Irq0 => .irq 7
  | .pio0Irq1 => .irq 8
  | .pio1Irq0 => .irq 9
  | .pio1Irq1 => .irq 10
  | .dmaIrq0 => .irq 11
  | .dmaIrq1 => .irq 12
  | .ioIrqBank0 => .irq 13
  | .ioIrqQspi => .irq 14
  | .sioIrqProc0 => .irq 15
  | .sioIrqProc1 => .irq 16
  | .clocksIrq => .irq 17
  | .spi0Irq => .irq 18
  | .spi1Irq => .irq 19
  | .uart0Irq => .irq 20
  | .uart1Irq => .irq 21
  | .adcIrqFifo => .irq 22
  | .i2c0Irq => .irq 23
  | .i2c1Irq => .irq 24
  | .rtcIrq => .irq 25

/-- The architectural kind of a vector entry: entry 0 is the stack-pointer
value, a null entry is a reserved slot, a handler entry has its symbol's
documented role. -/
def entryKind : VectorEntry → SlotKind
  | .stackTop => .stackPointer
  | .reserved => .reserved
  | .handler h => archSlot h

/-- Modelled from the spec: the target architecture's published vector
layout (ARMv6-M exception model as instantiated by the RP2040): slot 0 the
initial stack pointer, slot 1 Reset, slot 2 NMI, slot 3 HardFault, slots
4-10 reserved, slot 11 SVCall, slots 12-13 reserved, slot 14 PendSV, slot 15
SysTick, then the 32 external-interrupt slots of which the RP2040 implements
interrupts 0-25 and reserves 26-31. -/
def rp2040DocumentedLayout : List SlotKind :=
  [ .stackPointer, .reset, .nmi, .hardFault,
    .reserved, .reserved, .reserved, .reserved, .reserved, .reserved, .reserved,
    .svCall, .reserved, .reserved, .pendSv, .sysTick ]
  ++ (List.range 26).map SlotKind.irq
  ++ List.replicate 6 .reserved

/-! Theorems. -/

/-- C1 (counterexample): the claim that every slot other than 0 and 1 holds
a handler entry fails on the code: slot 4 of `vector` is a reserved null
entry (`0` at src/startup.c line 82). -/
theorem vector_slot4_reserved_cex :
    ¬ (∀ i : Nat, 2 ≤ i → i < vector.length →
        ∃ h, vector.get? i = some (VectorEntry.handler h)) := by
  intro hall
  obtain ⟨h, hh⟩ := hall 4 (by decide) (by decide)
  have h4 : vector.get? 4 = some VectorEntry.reserved := by decide
  rw [h4] at hh
  exact absurd (Option.some.inj hh) (by intro he; cases he)

/-- C1 (amended): every slot of the vector table other than slot 0 and
slot 1 that is not an architecture-reserved null entry holds a weak handler
symbol, which resolves to the application-supplied handler when one is
given and to the Default Trap otherwise; no non-reserved slot is a null
function entry. -/
theorem vector_slots_handler_or_trap (i : Fin vector.length)
    (h2 : 2 ≤ (i : Nat)) (hne : vector.get i ≠ VectorEntry.reserved) :
    ∃ h, vector.get i = VectorEntry.handler h ∧
      (∀ ov : Handler → Bool, ov h = false → resolve ov h = Handler.defaultHandler) ∧
      (∀ ov : Handler → Bool, ov h = true → resolve ov h = h) := by
  have hall : ∀ j : Fin vector.length, 2 ≤ (j : Nat) →
      vector.get j ≠ VectorEntry.reserved →
      ∃ h, vector.get j = VectorEntry.handler h ∧ h ∈ weakSymbols := by decide
  obtain ⟨h, hget, hw⟩ := hall i h2 hne
  refine ⟨h, hget, fun ov hov => ?_, fun ov hov => ?_⟩
  · rw [resolve, if_pos ⟨hw, hov⟩]
  · rw [resolve, if_neg]
    rintro ⟨-, hc⟩
    rw [hov] at hc
    cases hc

/-- C1 (witness): slot 2 is not reserved and holds a weak handler symbol. -/
theorem vector_slots_handler_or_trap_witness :
    2 ≤ ((⟨2, by decide⟩ : Fin vector.length) : Nat) ∧
    vector.get (⟨2, by decide⟩ : Fin vector.length) ≠ VectorEntry.reserved ∧
    ∃ h, vector.get (⟨2, by decide⟩ : Fin vector.length) = VectorEntry.handler h ∧
      (∀ ov : Handler → Bool, ov h = false → resolve ov h = Handler.defaultHandler) ∧
      (∀ ov : Handler → Bool, ov h = true → resolve ov h = h) :=
  ⟨by decide, by decide,
    vector_slots_handler_or_trap ⟨2, by decide⟩ (by decide) (by decide)⟩

/-- C2: slot 0 of the vector table is the configured stack-top value (the
address of `_sstack`, a data address, not a function), slot 1 is the reset
handler (the Boot Sequencer), and the reset handler's binding is strong: it
never resolves away, whatever overrides the application supplies. -/
theorem vector_slot0_slot1 :
    vector.get? 0 = some VectorEntry.stackTop ∧
    vector.get? 1 = some (VectorEntry.handler Handler.resetHandler) ∧
    ∀ ov : Handler → Bool, resolve ov Handler.resetHandler = Handler.resetHandler := by
  refine ⟨rfl, rfl, fun ov => ?_⟩
  rw [resolve, if_neg]
  rintro ⟨hmem, -⟩
  exact absurd hmem (by decide)

/-- C4: for every weak handler symbol, link-time resolution yields the
Default Trap when the application supplies no override and the override
itself when it supplies one; all unbound slots resolve to the one
`defaultHandler` implementation (they are all equal, not per-slot copies). -/
theorem resolution_policy (ov : Handler → Bool) (h : Handler)
    (hw : h ∈ weakSymbols) :
    (ov h = false → resolve ov h = Handler.defaultHandler) ∧
    (ov h = true → resolve ov h = h) ∧
    (∀ h2, h2 ∈ weakSymbols → ov h = false → ov h2 = false →
      resolve ov h = resolve ov h2) := by
  refine ⟨fun hov => ?_, fun hov => ?_, fun h2 hw2 hov hov2 => ?_⟩
  · rw [resolve, if_pos ⟨hw, hov⟩]
  · rw [resolve, if_neg]
    rintro ⟨-, hc⟩
    rw [hov] at hc
    cases hc
  · rw [resolve, resolve, if_pos ⟨hw, hov⟩, if_pos ⟨hw2, hov2⟩]

/-- C4 (witness): with no overrides, `timerIrq0` resolves to the Default
Trap, and with the application's overrides `ioIrqBank0` resolves to itself. -/
theorem resolution_policy_witness :
    resolve (fun _ => false) Handler.timerIrq0 = Handler.defaultHandler ∧
    resolve appOverrides Handler.ioIrqBank0 = Handler.ioIrqBank0 :=
  ⟨(resolution_policy (fun _ => false) Handler.timerIrq0 (by decide)).1 rfl,
   (resolution_policy appOverrides Handler.ioIrqBank0 (by decide)).2.1 (by decide)⟩

/-- C8: the compiled vector table has exactly the published RP2040 /
ARM Cortex-M0+ layout: 48 entries, and index by index each entry's
architectural kind equals the documented reference layout (structural
equality of the whole table, not mere non-nullness). -/
theorem vector_matches_documented_layout :
    vector.length = 48 ∧
    vector.length = rp2040DocumentedLayout.length ∧
    vector.map entryKind = rp2040DocumentedLayout := by
  refine ⟨rfl, ?_, ?_⟩ <;> decide

/-- C10: the interrupt number `main` enables in the NVIC (`IO_BANK0_IRQ =
13`, via `NVIC_ISER = 1U << IO_BANK0_IRQ`) is consistent with the vector
table: slot 16 + 13 = 29 holds exactly `ioIrqBank0`, the symbol the
application overrides, so the enabled interrupt dispatches to the
application's handler. -/
theorem nvic_enable_matches_vector :
    IO_BANK0_IRQ = 13 ∧
    nvicIserValue = 1 <<< 13 ∧
    vector.get? (16 + IO_BANK0_IRQ) = some (VectorEntry.handler Handler.ioIrqBank0) ∧
    appOverrides Handler.ioIrqBank0 = true ∧
    resolve appOverrides Handler.ioIrqBank0 = Handler.ioIrqBank0 := by
  decide

/-- C3 (counterexample): the claim calls the loop the Boot Sequencer falls
into a low-power loop, but the `while(true);` of src/startup.c line 137 has
an empty body: the iteration after `main` returns does not execute the
wait-for-interrupt primitive. -/
theorem boot_halted_loop_not_lowpower_cex :
    ¬ (bootInstr (bootNext BootState.entry) = Instr.wfi) := by decide

/-- C3 (amended): the Boot Sequencer calls exactly one external application
entry point with no arguments (the call to `main` happens in the `entry`
state and nowhere else), and if that entry point returns, it enters an
infinite busy loop (the Halted state) from which no further code ever
executes; the loop is a bare spin, not a low-power wait. -/
theorem boot_sequencer_behaviour (n : Nat) (hn : 1 ≤ n) :
    bootInstr BootState.entry = Instr.callMain ∧
    bootNext^[n] BootState.entry = BootState.halted ∧
    (∀ s, bootInstr s = Instr.callMain ↔ s = BootState.entry) ∧
    bootInstr BootState.halted = Instr.spin := by
  refine ⟨rfl, ?_, by decide, rfl⟩
  cases n with
  | zero => omega
  | succ m =>
    rw [Function.iterate_succ_apply]
    exact Function.iterate_fixed rfl m

/-- C3 (witness): one step after entry the Boot Sequencer is halted. -/
theorem boot_sequencer_behaviour_witness :
    1 ≤ 1 ∧ bootNext^[1] BootState.entry = BootState.halted :=
  ⟨Nat.le_refl 1, (boot_sequencer_behaviour 1 (Nat.le_refl 1)).2.1⟩

/-- C7: the Default Trap never returns (its step always yields a next state)
and every iteration of its loop executes exactly the `wfi`
wait-for-interrupt primitive, not a busy spin. -/
theorem default_trap_waits_forever (s : TrapState) :
    trapStep s ≠ none ∧ trapStep s = some TrapState.waiting ∧
    trapInstr s = Instr.wfi := by
  cases s
  exact ⟨by decide, rfl, rfl⟩

/-- Helper: a bitwise-and chain vanishes when two of its factors have no
common bit. -/
theorem land_chain_eq_zero (x y c m : Nat) (h : c &&& m = 0) :
    ((x &&& c) &&& y) &&& m = 0 := by
  apply Nat.eq_of_testBit_eq
  intro i
  have hc := congrArg (fun t => t.testBit i) h
  simp only [Nat.testBit_and, Nat.zero_testBit, Bool.and_eq_false_iff] at hc
  simp only [Nat.testBit_and, Nat.zero_testBit]
  rcases hc with h1 | h1 <;> simp [h1]

/-- C5: if the edge handler runs with its own source asserted (the masked
interrupt status shows the button's edge-high bit), then after it returns
its own pending edge-high latch is cleared, re-reading the masked status
shows the source deasserted, and every pending bit belonging to another
interrupt source — the other three `intr` words, every bit of the other
pins in the button's word, and even the button's own raw level bits —
is unchanged. -/
theorem edge_handler_clears_own_source (s : HwState)
    (hp : ints2 s &&& (GPIO_INT_EDGE_HIGH <<< (4 * (BUTTON_PIN % 8))) ≠ 0) :
    (ioIrqBank0Run s).intr2.testBit 3 = false ∧
    ints2 (ioIrqBank0Run s) &&& (GPIO_INT_EDGE_HIGH <<< (4 * (BUTTON_PIN % 8))) = 0 ∧
    (ioIrqBank0Run s).intr0 = s.intr0 ∧
    (ioIrqBank0Run s).intr1 = s.intr1 ∧
    (ioIrqBank0Run s).intr3 = s.intr3 ∧
    (∀ b : Fin 32, 4 ≤ (b : Nat) →
      (ioIrqBank0Run s).intr2.testBit b = s.intr2.testBit b) ∧
    (ioIrqBank0Run s).intr2.testBit 0 = s.intr2.testBit 0 ∧
    (ioIrqBank0Run s).intr2.testBit 1 = s.intr2.testBit 1 := by
  have hEff : ioIrqBank0Effects s =
      [ .gpioOutSet ((1 <<< LED_PIN) ||| (1 <<< SPEAKER_PIN)),
        .delayFor 100000,
        .gpioOutClr ((1 <<< LED_PIN) ||| (1 <<< SPEAKER_PIN)),
        .intrWrite (BUTTON_PIN / 8) (0xF <<< (4 * (BUTTON_PIN % 8))) ] := by
    rw [ioIrqBank0Effects, if_pos hp]
  have h2 : (ioIrqBank0Run s).intr2 = s.intr2 &&& 0xFFFFFFF3 := by
    rw [ioIrqBank0Run, hEff]
    rfl
  have hCt : ∀ b : Fin 32, 4 ≤ (b : Nat) → (0xFFFFFFF3 : Nat).testBit b = true := by
    decide
  refine ⟨?_, ?_, ?_, ?_, ?_, ?_, ?_, ?_⟩
  · rw [h2, Nat.testBit_and]
    simp [show (0xFFFFFFF3 : Nat).testBit 3 = false from by decide]
  · show ((ioIrqBank0Run s).intr2 &&& (ioIrqBank0Run s).inte2) &&& _ = 0
    have hinte : (ioIrqBank0Run s).inte2 = s.inte2 := by
      rw [ioIrqBank0Run, hEff]
      rfl
    rw [h2, hinte]
    exact land_chain_eq_zero s.intr2 s.inte2 0xFFFFFFF3 _ (by decide)
  · rw [ioIrqBank0Run, hEff]; rfl
  · rw [ioIrqBank0Run, hEff]; rfl
  · rw [ioIrqBank0Run, hEff]; rfl
  · intro b hb
    rw [h2, Nat.testBit_and, hCt b hb, Bool.and_true]
  · rw [h2, Nat.testBit_and]
    simp [show (0xFFFFFFF3 : Nat).testBit 0 = true from by decide]
  · rw [h2, Nat.testBit_and]
    simp [show (0xFFFFFFF3 : Nat).testBit 1 = true from by decide]

/-- C5 (witness): from a state where only the button's edge-high latch and
enable are set, the handler clears the latch and a re-read is deasserted. -/
theorem edge_handler_clears_own_source_witness :
    ints2 (⟨0, 0, 8, 0, 8, 0⟩ : HwState) &&&
      (GPIO_INT_EDGE_HIGH <<< (4 * (BUTTON_PIN % 8))) ≠ 0 ∧
    (ioIrqBank0Run (⟨0, 0, 8, 0, 8, 0⟩ : HwState)).intr2.testBit 3 = false ∧
    ints2 (ioIrqBank0Run (⟨0, 0, 8, 0, 8, 0⟩ : HwState)) &&&
      (GPIO_INT_EDGE_HIGH <<< (4 * (BUTTON_PIN % 8))) = 0 :=
  ⟨by decide,
   (edge_handler_clears_own_source ⟨0, 0, 8, 0, 8, 0⟩ (by decide)).1,
   (edge_handler_clears_own_source ⟨0, 0, 8, 0, 8, 0⟩ (by decide)).2.1⟩

/-- C6: the edge handler reads the masked interrupt status scoped to its own
source, and performs its bounded side effect — assert the LED and speaker
outputs, hold for the fixed delay, deassert them, clear the source — if and
only if its own source is asserted; when the source is not asserted it
performs no writes at all and leaves the state unchanged. -/
theorem edge_handler_fires_iff_asserted (s : HwState) :
    (ints2 s &&& (GPIO_INT_EDGE_HIGH <<< (4 * (BUTTON_PIN % 8))) ≠ 0 →
      ioIrqBank0Effects s =
        [ .gpioOutSet ((1 <<< LED_PIN) ||| (1 <<< SPEAKER_PIN)),
          .delayFor 100000,
          .gpioOutClr ((1 <<< LED_PIN) ||| (1 <<< SPEAKER_PIN)),
          .intrWrite (BUTTON_PIN / 8) (0xF <<< (4 * (BUTTON_PIN % 8))) ] ∧
      (applyEffect s
        (.gpioOutSet ((1 <<< LED_PIN) ||| (1 <<< SPEAKER_PIN)))).gpioOut.testBit
          LED_PIN = true ∧
      (applyEffect s
        (.gpioOutSet ((1 <<< LED_PIN) ||| (1 <<< SPEAKER_PIN)))).gpioOut.testBit
          SPEAKER_PIN = true ∧
      (ioIrqBank0Run s).gpioOut.testBit LED_PIN = false ∧
      (ioIrqBank0Run s).gpioOut.testBit SPEAKER_PIN = false) ∧
    (ints2 s &&& (GPIO_INT_EDGE_HIGH <<< (4 * (BUTTON_PIN % 8))) = 0 →
      ioIrqBank0Effects s = [] ∧ ioIrqBank0Run s = s) := by
  constructor
  · intro hp
    have hEff : ioIrqBank0Effects s =
        [ .gpioOutSet ((1 <<< LED_PIN) ||| (1 <<< SPEAKER_PIN)),
          .delayFor 100000,
          .gpioOutClr ((1 <<< LED_PIN) ||| (1 <<< SPEAKER_PIN)),
          .intrWrite (BUTTON_PIN / 8) (0xF <<< (4 * (BUTTON_PIN % 8))) ] := by
      rw [ioIrqBank0Effects, if_pos hp]
    have hset : (applyEffect s
        (.gpioOutSet ((1 <<< LED_PIN) ||| (1 <<< SPEAKER_PIN)))).gpioOut =
        (s.gpioOut ||| ((1 <<< LED_PIN) ||| (1 <<< SPEAKER_PIN))) &&& mask32 := rfl
    have hfin : (ioIrqBank0Run s).gpioOut =
        ((s.gpioOut ||| ((1 <<< LED_PIN) ||| (1 <<< SPEAKER_PIN))) &&& mask32) &&&
          (mask32 ^^^
            (((1 <<< LED_PIN) ||| (1 <<< SPEAKER_PIN)) &&& mask32)) := by
      rw [ioIrqBank0Run, hEff]
      rfl
    refine ⟨hEff, ?_, ?_, ?_, ?_⟩
    · rw [hset, Nat.testBit_and, Nat.testBit_or]
      simp [show (((1 <<< LED_PIN) ||| (1 <<< SPEAKER_PIN) : Nat)).testBit LED_PIN
              = true from by decide,
            show (mask32).testBit LED_PIN = true from by decide]
    · rw [hset, Nat.testBit_and, Nat.testBit_or]
      simp [show (((1 <<< LED_PIN) ||| (1 <<< SPEAKER_PIN) : Nat)).testBit SPEAKER_PIN
              = true from by decide,
            show (mask32).testBit SPEAKER_PIN = true from by decide]
    · rw [hfin, Nat.testBit_and]
      simp [show ((mask32 ^^^
          (((1 <<< LED_PIN) ||| (1 <<< SPEAKER_PIN)) &&& mask32) : Nat)).testBit
            LED_PIN = false from by decide]
    · rw [hfin, Nat.testBit_and]
      simp [show ((mask32 ^^^
          (((1 <<< LED_PIN) ||| (1 <<< SPEAKER_PIN)) &&& mask32) : Nat)).testBit
            SPEAKER_PIN = false from by decide]
  · intro hz
    have he : ioIrqBank0Effects s = [] := by
      rw [ioIrqBank0Effects, if_neg (fun hc => hc hz)]
    exact ⟨he, by rw [ioIrqBank0Run, he]; rfl⟩

/-- C6 (witness): with the source asserted the handler emits exactly the
set/delay/clear/acknowledge sequence; with it deasserted it writes nothing. -/
theorem edge_handler_fires_iff_asserted_witness :
    (ints2 (⟨0, 0, 8, 0, 8, 0⟩ : HwState) &&&
      (GPIO_INT_EDGE_HIGH <<< (4 * (BUTTON_PIN % 8))) ≠ 0 ∧
      ioIrqBank0Effects (⟨0, 0, 8, 0, 8, 0⟩ : HwState) ≠ []) ∧
    (ints2 (⟨0, 0, 0, 0, 8, 0⟩ : HwState) &&&
      (GPIO_INT_EDGE_HIGH <<< (4 * (BUTTON_PIN % 8))) = 0 ∧
      ioIrqBank0Effects (⟨0, 0, 0, 0, 8, 0⟩ : HwState) = []) :=
  ⟨⟨by decide, by
      rw [((edge_handler_fires_iff_asserted ⟨0, 0, 8, 0, 8, 0⟩).1 (by decide)).1]
      decide⟩,
   ⟨by decide, ((edge_handler_fires_iff_asserted ⟨0, 0, 0, 0, 8, 0⟩).2 (by decide)).1⟩⟩

/-- C9: every static access of the program to a hardware register shared
between foreground code and the interrupt handler, where the target provides
atomic set/clear/xor aliases, is not a plain read-modify-write: all
read-modify-writes of shared registers go through the atomic alias
registers (the shared `gpio_out` is only ever touched via `gpio_out_set` /
`gpio_out_clr`, and the shared `intr` word only via plain write-1-to-clear
stores, which are not read-modify-writes). -/
theorem shared_register_rmw_uses_alias :
    ∀ a ∈ programAccesses, isSharedReg a.reg = true →
      hasAtomicAlias a.reg = true → a.kind ≠ AccessKind.plainRMW := by
  decide

/-- C9 (witness): the handler's `sio->gpio_out_set` store touches a shared,
alias-equipped register and is an atomic-alias write, not a plain RMW. -/
theorem shared_register_rmw_uses_alias_witness :
    (⟨Reg.sioGpioOut, AccessKind.atomicSet, Ctx.handler⟩ : Access) ∈ programAccesses ∧
    isSharedReg Reg.sioGpioOut = true ∧
    hasAtomicAlias Reg.sioGpioOut = true ∧
    (⟨Reg.sioGpioOut, AccessKind.atomicSet, Ctx.handler⟩ : Access).kind ≠
      AccessKind.plainRMW :=
  ⟨by decide, by decide, by decide,
   shared_register_rmw_uses_alias ⟨Reg.sioGpioOut, AccessKind.atomicSet, Ctx.handler⟩
     (by decide) (by decide) (by decide)⟩

end CMorse
